import Mathlib

/-!
# Batch Pair Processor: a shallow embedding of `openpiv/tools.py`'s `Multiprocesser`

This file embeds the core logic of the `Multiprocesser` class
(`openpiv/tools.py`, lines 209-280) and proves the spec's claims about it.

Modelling decisions:
* A Python string (file path, error message subject to ordering) is a
  `List Char`; Python compares strings lexicographically by code point,
  exactly the `LinearOrder (List Char)` order used here.
* The filesystem is a snapshot: the directory's entries in enumeration
  order are an explicit `List PyPath` argument, and `glob.glob` is the filter
  of that list by a shell-glob matcher, prefixed with the directory.
* Python's `sorted` is modelled by insertion sort with `(· ≤ ·)`; any
  correct sort of a linearly ordered list yields the same result, so this
  is extensionally `sorted`.
* `raise ValueError(msg)` is modelled by returning `Except.error` carrying
  the exception class and message.
* `run`'s dispatch (lines 275-280) is modelled by the observable outcome in
  the calling context: for `n_cpus > 1` the full task list is submitted to a
  pool of `n_cpus` workers; otherwise the sequential loop processes the task
  list in order.  The sequential loop itself is a fold (`runLoop`) so that
  the exact call sequence made to `func` can be observed by instantiating
  the state with a call trace.
-/

/-- A file path (or any Python string being compared): a sequence of
characters, ordered lexicographically by code point as Python orders
strings. -/
abbrev PyPath : Type := List Char

/-- The Python exception classes raised by the module: `Multiprocesser.__init__`
raises only `ValueError` (tools.py lines 250 and 253). -/
inductive PyExcType where
  | valueError
deriving DecidableEq

/-- A raised Python exception: its class and its message text. -/
structure PyError where
  etype : PyExcType
  msg : String
deriving DecidableEq

/-- The exception raised at tools.py line 250 when the two match counts
differ (the spec's `MismatchedCountError`). -/
def mismatchedCountError : PyError :=
  { etype := PyExcType.valueError
    msg := "Something failed loading the image file. There should be an equal number of \"a\" and \"b\" files." }

/-- The exception raised at tools.py line 253 when no files were found
(the spec's `NoFilesFoundError`). -/
def noFilesFoundError : PyError :=
  { etype := PyExcType.valueError
    msg := "Something failed loading the image file. No images were found. Please check directory and image template name." }

/-- Python's `sorted` on a list of strings: ascending lexicographic sort. -/
def pysorted (l : List PyPath) : List PyPath :=
  List.insertionSort (· ≤ ·) l

/-- Shell-glob matching of a pattern against a filename, for the pattern
subset the module uses: literal characters, `?` (any one character) and `*`
(any, possibly empty, run of characters). -/
def globMatch : (pattern : PyPath) → (s : PyPath) → Bool
  | [], s => s.isEmpty
  | '*' :: ps, s => (List.range (s.length + 1)).any fun k => globMatch ps (s.drop k)
  | '?' :: ps, s =>
    match s with
    | [] => false
    | _ :: s2 => globMatch ps s2
  | p :: ps, s =>
    match s with
    | [] => false
    | c :: s2 => p == c && globMatch ps s2

/-- `glob.glob(os.path.join(os.path.abspath(data_dir), pattern))` against a
directory snapshot.  `data_dir` stands for the absolute form of the base
directory, `dirFiles` for the directory's entries in filesystem enumeration
order.  The pattern contains no path separator, so it applies to the
filename component; matches are returned as full paths in enumeration
order. -/
def globGlob (data_dir pattern : PyPath) (dirFiles : List PyPath) : List PyPath :=
  (dirFiles.filter fun name => globMatch pattern name).map
    fun name => data_dir ++ '/' :: name

/-- The state of a successfully constructed `Multiprocesser`: the two
sorted file lists and `n_files = len(files_a)` (tools.py lines 242-246). -/
structure Multiprocesser where
  files_a : List PyPath
  files_b : List PyPath
  n_files : Nat
deriving DecidableEq

/-- `Multiprocesser.__init__` (tools.py lines 242-253) after glob
expansion: its inputs are the two glob match lists (in filesystem
enumeration order).  It sorts each list, records `n_files`, and validates:
first the count-mismatch check (line 249), then the no-files check
(line 252). -/
def Multiprocesser.init (matches_a matches_b : List PyPath) :
    Except PyError Multiprocesser :=
  let files_a := pysorted matches_a
  let files_b := pysorted matches_b
  let n_files := files_a.length
  if files_a.length ≠ files_b.length then
    Except.error mismatchedCountError
  else if files_a.length = 0 then
    Except.error noFilesFoundError
  else
    Except.ok { files_a := files_a, files_b := files_b, n_files := n_files }

/-- Construction of the processor from a directory snapshot: expand both
patterns with `glob.glob` and run `__init__`'s sort-and-validate. -/
def mkMultiprocesser (data_dir pattern_a pattern_b : PyPath)
    (dirFiles : List PyPath) : Except PyError Multiprocesser :=
  Multiprocesser.init (globGlob data_dir pattern_a dirFiles)
    (globGlob data_dir pattern_b dirFiles)

/-- A WorkItem: the triple `(file_a, file_b, i)` built at tools.py
line 271. -/
abbrev WorkItem : Type := PyPath × PyPath × Nat

/-- The `image_pairs` list built at the top of `run` (tools.py line 271):
`[(file_a, file_b, i) for file_a, file_b, i in zip(files_a, files_b, xrange(n_files))]`.
Python's `zip` truncates to the shortest input, as `List.zip` does. -/
def Multiprocesser.image_pairs (m : Multiprocesser) : List WorkItem :=
  m.files_a.zip (m.files_b.zip (List.range m.n_files))

/-- The observable outcome of `run` in the calling context
(tools.py lines 275-280): with `n_cpus > 1` every task is submitted to a
pool of `n_cpus` workers (lines 276-277); otherwise the sequential loop
calls `func` on each task in list order (lines 279-280). -/
inductive RunOutcome where
  | sequentialCalls (calls : List WorkItem)
  | submittedToPool (tasks : List WorkItem) (workers : Int)
deriving DecidableEq

/-- `Multiprocesser.run` (tools.py lines 255-280): build `image_pairs`,
then dispatch on `n_cpus > 1`.  There is no validation of `n_cpus`: every
value ≤ 1 takes the sequential branch. -/
def Multiprocesser.run (m : Multiprocesser) (n_cpus : Int) : RunOutcome :=
  let image_pairs := m.image_pairs
  if n_cpus > 1 then RunOutcome.submittedToPool image_pairs n_cpus
  else RunOutcome.sequentialCalls image_pairs

/-- The sequential loop of `run` (tools.py lines 279-280): apply `func` to
each image pair in list order, threading the state `func` mutates.  Calling
it with a trace-recording `func` recovers the exact call sequence. -/
def runLoop {σ : Type} (func : WorkItem → σ → σ) (pairs : List WorkItem)
    (s : σ) : σ :=
  pairs.foldl (fun s p => func p s) s

deriving instance DecidableEq for Except

/-! ## Helper lemmas -/

theorem pysorted_perm (l : List PyPath) : (pysorted l).Perm l :=
  List.perm_insertionSort _ l

theorem pysorted_sorted (l : List PyPath) : List.Sorted (· ≤ ·) (pysorted l) :=
  List.sorted_insertionSort _ l

theorem pysorted_length (l : List PyPath) : (pysorted l).length = l.length :=
  (pysorted_perm l).length_eq

theorem pysorted_mem {a : PyPath} {l : List PyPath} (h : a ∈ l) : a ∈ pysorted l :=
  (pysorted_perm l).mem_iff.mpr h

/-- Sorting is a canonical form: any two enumeration orders of the same
multiset of paths sort to the same list. -/
theorem pysorted_eq_of_perm {l₁ l₂ : List PyPath} (h : l₁.Perm l₂) :
    pysorted l₁ = pysorted l₂ :=
  List.eq_of_perm_of_sorted
    ((pysorted_perm l₁).trans (h.trans (pysorted_perm l₂).symm))
    (pysorted_sorted l₁) (pysorted_sorted l₂)

/-- Inversion of a successful construction: the fields are the sorted match
lists, `n_files` is their common length, and that length is nonzero. -/
theorem Multiprocesser.init_ok {ma mb : List PyPath} {m : Multiprocesser}
    (h : Multiprocesser.init ma mb = Except.ok m) :
    m.files_a = pysorted ma ∧ m.files_b = pysorted mb ∧
      m.n_files = m.files_a.length ∧ m.files_a.length = m.files_b.length ∧
      m.files_a.length ≠ 0 := by
  simp only [Multiprocesser.init] at h
  split_ifs at h with h1 h2
  cases h
  exact ⟨rfl, rfl, rfl, not_ne_iff.mp h1, h2⟩

/-- Construction succeeds whenever the two match counts agree and are
nonzero. -/
theorem Multiprocesser.init_ok_of {ma mb : List PyPath}
    (hlen : ma.length = mb.length) (hne : ma ≠ []) :
    Multiprocesser.init ma mb =
      Except.ok ⟨pysorted ma, pysorted mb, (pysorted ma).length⟩ := by
  unfold Multiprocesser.init
  rw [if_neg, if_neg]
  · rw [pysorted_length]
    exact fun h0 => hne (List.eq_nil_of_length_eq_zero h0)
  · rw [not_ne_iff, pysorted_length, pysorted_length]
    exact hlen

/-- `__init__` depends on the match lists only through their sorted form. -/
theorem Multiprocesser.init_eq_of_pysorted_eq {ma mb ma2 mb2 : List PyPath}
    (h1 : pysorted ma = pysorted ma2) (h2 : pysorted mb = pysorted mb2) :
    Multiprocesser.init ma mb = Multiprocesser.init ma2 mb2 := by
  unfold Multiprocesser.init
  rw [h1, h2]

/-- Permuting the directory enumeration permutes each glob match list. -/
theorem globGlob_perm {fs1 fs2 : List PyPath} (h : fs1.Perm fs2)
    (d p : PyPath) : (globGlob d p fs1).Perm (globGlob d p fs2) :=
  List.Perm.map _ (List.Perm.filter _ h)

theorem inner_zip_length {m : Multiprocesser}
    (hab : m.files_a.length = m.files_b.length)
    (hn : m.n_files = m.files_a.length) :
    (m.files_b.zip (List.range m.n_files)).length = m.n_files := by
  rw [List.length_zip, List.length_range, hn, hab]
  exact min_self _

theorem image_pairs_length {m : Multiprocesser}
    (hab : m.files_a.length = m.files_b.length)
    (hn : m.n_files = m.files_a.length) :
    m.image_pairs.length = m.n_files := by
  rw [Multiprocesser.image_pairs, List.length_zip, inner_zip_length hab hn,
    hn]
  exact min_self _

/-- The `PairIndex` components of `image_pairs` are exactly `0, …, n-1` in
order. -/
theorem image_pairs_map_idx {m : Multiprocesser}
    (hab : m.files_a.length = m.files_b.length)
    (hn : m.n_files = m.files_a.length) :
    m.image_pairs.map (fun w => w.2.2) = List.range m.n_files := by
  have h2 : List.map Prod.snd m.image_pairs =
      m.files_b.zip (List.range m.n_files) :=
    List.map_snd_zip _ _ (by rw [inner_zip_length hab hn]; exact le_of_eq hn)
  have h1 : List.map Prod.snd (m.files_b.zip (List.range m.n_files)) =
      List.range m.n_files :=
    List.map_snd_zip _ _
      (by rw [List.length_range]; exact le_of_eq (by rw [hn, hab]))
  have hcomp : m.image_pairs.map (fun w => w.2.2) =
      (m.image_pairs.map Prod.snd).map Prod.snd := by
    rw [List.map_map]; rfl
  rw [hcomp, h2, h1]

theorem image_pairs_nodup {m : Multiprocesser}
    (hab : m.files_a.length = m.files_b.length)
    (hn : m.n_files = m.files_a.length) : m.image_pairs.Nodup :=
  List.Nodup.of_map _
    ((image_pairs_map_idx hab hn) ▸ List.nodup_range m.n_files)

/-- WorkItems carry strictly ascending `PairIndex`es. -/
theorem image_pairs_sorted_idx {m : Multiprocesser}
    (hab : m.files_a.length = m.files_b.length)
    (hn : m.n_files = m.files_a.length) :
    List.Pairwise (fun w w2 => w.2.2 < w2.2.2) m.image_pairs := by
  have h := List.pairwise_lt_range m.n_files
  rw [← image_pairs_map_idx hab hn] at h
  exact List.pairwise_map.mp h

/-- The WorkItem at position `i` pairs the `i`-th sorted paths with index
`i`. -/
theorem image_pairs_getElem {m : Multiprocesser}
    (hn : m.n_files = m.files_a.length) (i : Nat) (a b : PyPath)
    (ha : m.files_a[i]? = some a) (hb : m.files_b[i]? = some b) :
    m.image_pairs[i]? = some (a, b, i) := by
  have hi : i < m.files_a.length := by
    obtain ⟨h, -⟩ := List.getElem?_eq_some.mp ha
    exact h
  have hr : (List.range m.n_files)[i]? = some i :=
    List.getElem?_range (by omega)
  exact List.getElem?_zip_eq_some.mpr
    ⟨ha, List.getElem?_zip_eq_some.mpr ⟨hb, hr⟩⟩

theorem foldl_append_singleton (pairs : List WorkItem) :
    ∀ acc : List WorkItem,
      pairs.foldl (fun s p => s ++ [p]) acc = acc ++ pairs := by
  induction pairs with
  | nil => intro acc; simp
  | cons p ps ih => intro acc; simp [ih]

/-- Run with a trace-recording `func`: the sequential loop calls `func` on
exactly the `image_pairs` list, in list order. -/
theorem runLoop_trace (pairs : List WorkItem) :
    runLoop (fun w t => t ++ [w]) pairs [] = pairs := by
  simpa [runLoop] using foldl_append_singleton pairs []

/-- The count-mismatch branch of `__init__` (tools.py 249-250). -/
theorem Multiprocesser.init_mismatch {ma mb : List PyPath}
    (h : ma.length ≠ mb.length) :
    Multiprocesser.init ma mb = Except.error mismatchedCountError := by
  have hcond : (pysorted ma).length ≠ (pysorted mb).length := by
    rw [pysorted_length, pysorted_length]; exact h
  simp only [Multiprocesser.init]
  rw [if_pos hcond]

/-! ## Claims -/

/-- Claim C1: for every construction that succeeds, the WorkItem sequence
has the same length as FileSet A and FileSet B, and the WorkItem at index
`i` is exactly `(sorted A !! i, sorted B !! i, i)`; in the concrete
directory `img_000_a.png, img_001_a.png, img_000_b.png, img_001_b.png`
with patterns `img_*_a.png` / `img_*_b.png` the WorkItems are
`[(/data/img_000_a.png, /data/img_000_b.png, 0),
(/data/img_001_a.png, /data/img_001_b.png, 1)]`. -/
theorem spec_c1_pairing :
    (∀ (ma mb : List PyPath) (m : Multiprocesser),
        Multiprocesser.init ma mb = Except.ok m →
          m.image_pairs.length = m.files_a.length ∧
          m.image_pairs.length = m.files_b.length ∧
          ∀ (i : Nat) (a b : PyPath), m.files_a[i]? = some a →
            m.files_b[i]? = some b → m.image_pairs[i]? = some (a, b, i)) ∧
      mkMultiprocesser "/data".data "img_*_a.png".data "img_*_b.png".data
          ["img_000_a.png".data, "img_001_a.png".data,
            "img_000_b.png".data, "img_001_b.png".data] =
        Except.ok
          { files_a := ["/data/img_000_a.png".data, "/data/img_001_a.png".data]
            files_b := ["/data/img_000_b.png".data, "/data/img_001_b.png".data]
            n_files := 2 } ∧
      (Multiprocesser.mk
          ["/data/img_000_a.png".data, "/data/img_001_a.png".data]
          ["/data/img_000_b.png".data, "/data/img_001_b.png".data]
          2).image_pairs =
        [("/data/img_000_a.png".data, "/data/img_000_b.png".data, 0),
          ("/data/img_001_a.png".data, "/data/img_001_b.png".data, 1)] := by
  refine ⟨?_, by decide, by decide⟩
  intro ma mb m h
  obtain ⟨-, -, hn, hab, -⟩ := Multiprocesser.init_ok h
  exact ⟨by rw [image_pairs_length hab hn, hn],
    by rw [image_pairs_length hab hn, hn, hab],
    fun i a b ha hb => image_pairs_getElem hn i a b ha hb⟩

/-- Witness for C1: the general part applied to a concrete successful
construction. -/
theorem spec_c1_pairing_witness :
    (Multiprocesser.mk ["x".data] ["y".data] 1).image_pairs.length =
      (Multiprocesser.mk ["x".data] ["y".data] 1).files_a.length :=
  (spec_c1_pairing.1 ["x".data] ["y".data] _ (by decide)).1

/-- Claim C2: whenever the two glob match lists have different lengths,
construction raises the mismatched-count `ValueError` and never yields a
processor (so no WorkItem sequence exists and no per-pair function can be
invoked). -/
theorem spec_c2_mismatched_counts (ma mb : List PyPath)
    (h : ma.length ≠ mb.length) :
    Multiprocesser.init ma mb = Except.error mismatchedCountError ∧
      ∀ m : Multiprocesser, Multiprocesser.init ma mb ≠ Except.ok m := by
  have herr := Multiprocesser.init_mismatch h
  exact ⟨herr, fun m hm => by rw [herr] at hm; cases hm⟩

/-- Witness for C2: three "a" files against two "b" files. -/
theorem spec_c2_mismatched_counts_witness :
    Multiprocesser.init ["f1".data, "f2".data, "f3".data]
        ["g1".data, "g2".data] =
      Except.error mismatchedCountError :=
  (spec_c2_mismatched_counts _ _ (by decide)).1

/-- Counterexample to C3 as stated: with zero "a" matches and one "b"
match, construction raises the mismatched-count error (tools.py line 249
fires first), not the no-files error. -/
theorem spec_c3_counterexample :
    Multiprocesser.init [] ["x".data] ≠ Except.error noFilesFoundError ∧
      Multiprocesser.init [] ["x".data] =
        Except.error mismatchedCountError := by
  decide

/-- Claim C3 (amended): if either pattern matches zero files, construction
always fails before any processing; it raises `NoFilesFoundError` exactly
when both match sets are empty, and the mismatched-count error otherwise
(the count check at tools.py line 249 precedes the no-files check at
line 252). -/
theorem spec_c3_zero_matches (ma mb : List PyPath) (h : ma = [] ∨ mb = []) :
    (∀ m : Multiprocesser, Multiprocesser.init ma mb ≠ Except.ok m) ∧
      (ma = [] ∧ mb = [] →
        Multiprocesser.init ma mb = Except.error noFilesFoundError) ∧
      (¬(ma = [] ∧ mb = []) →
        Multiprocesser.init ma mb = Except.error mismatchedCountError) := by
  by_cases hboth : ma = [] ∧ mb = []
  · obtain ⟨rfl, rfl⟩ := hboth
    have herr : Multiprocesser.init ([] : List PyPath) [] =
        Except.error noFilesFoundError := by decide
    exact ⟨fun m hm => (by rw [herr] at hm; cases hm),
      fun _ => herr, fun hc => absurd ⟨rfl, rfl⟩ hc⟩
  · have hlen : ma.length ≠ mb.length := by
      rcases h with rfl | rfl
      · intro h0
        exact hboth ⟨rfl, List.eq_nil_of_length_eq_zero h0.symm⟩
      · intro h0
        exact hboth ⟨List.eq_nil_of_length_eq_zero h0, rfl⟩
    have herr := Multiprocesser.init_mismatch hlen
    exact ⟨fun m hm => (by rw [herr] at hm; cases hm),
      fun hc => absurd hc hboth, fun _ => herr⟩

/-- Witness for the amended C3: both patterns matching nothing raises the
no-files error. -/
theorem spec_c3_zero_matches_witness :
    Multiprocesser.init [] [] = Except.error noFilesFoundError :=
  (spec_c3_zero_matches [] [] (Or.inl rfl)).2.1 ⟨rfl, rfl⟩

/-- Claim C4: for every successfully constructed processor, `run` with
`workerCount = 1` takes the sequential branch, and the in-order loop calls
the per-pair function on exactly the `image_pairs` list: once per WorkItem
(the list is duplicate-free), with one invocation for every `PairIndex`
`0 … n-1`, in strictly ascending `PairIndex` order. -/
theorem spec_c4_sequential_order (ma mb : List PyPath) (m : Multiprocesser)
    (h : Multiprocesser.init ma mb = Except.ok m) :
    m.run 1 = RunOutcome.sequentialCalls m.image_pairs ∧
      runLoop (fun w t => t ++ [w]) m.image_pairs [] = m.image_pairs ∧
      m.image_pairs.Nodup ∧
      m.image_pairs.map (fun w => w.2.2) = List.range m.n_files ∧
      List.Pairwise (fun w w2 => w.2.2 < w2.2.2) m.image_pairs := by
  obtain ⟨-, -, hn, hab, -⟩ := Multiprocesser.init_ok h
  refine ⟨?_, runLoop_trace _, image_pairs_nodup hab hn,
    image_pairs_map_idx hab hn, image_pairs_sorted_idx hab hn⟩
  simp only [Multiprocesser.run]
  rw [if_neg (by omega : ¬((1 : Int) > 1))]

/-- Witness for C4: the sequential branch at a concrete processor. -/
theorem spec_c4_sequential_order_witness :
    (Multiprocesser.mk ["x".data] ["y".data] 1).run 1 =
      RunOutcome.sequentialCalls
        (Multiprocesser.mk ["x".data] ["y".data] 1).image_pairs :=
  (spec_c4_sequential_order ["x".data] ["y".data] _ (by decide)).1

/-- Claim C5: construction is deterministic.  For the same filesystem
state (any enumeration order of the same directory entries) and the same
base directory and patterns, the two constructions are equal, and in
particular yield identical WorkItem sequences. -/
theorem spec_c5_deterministic (d pa pb : PyPath) (fs1 fs2 : List PyPath)
    (h : fs1.Perm fs2) :
    mkMultiprocesser d pa pb fs1 = mkMultiprocesser d pa pb fs2 ∧
      ∀ m1 m2 : Multiprocesser,
        mkMultiprocesser d pa pb fs1 = Except.ok m1 →
        mkMultiprocesser d pa pb fs2 = Except.ok m2 →
        m1.image_pairs = m2.image_pairs := by
  have heq : mkMultiprocesser d pa pb fs1 = mkMultiprocesser d pa pb fs2 :=
    Multiprocesser.init_eq_of_pysorted_eq
      (pysorted_eq_of_perm (globGlob_perm h d pa))
      (pysorted_eq_of_perm (globGlob_perm h d pb))
  refine ⟨heq, fun m1 m2 h1 h2 => ?_⟩
  have hok : Except.ok (ε := PyError) m1 = Except.ok m2 := by
    rw [← h1, heq, h2]
  cases hok
  rfl

/-- Witness for C5: the same directory enumerated in two orders. -/
theorem spec_c5_deterministic_witness :
    mkMultiprocesser "/data".data "*_a.png".data "*_b.png".data
        ["f_a.png".data, "f_b.png".data] =
      mkMultiprocesser "/data".data "*_a.png".data "*_b.png".data
        ["f_b.png".data, "f_a.png".data] :=
  (spec_c5_deterministic _ _ _ _ _ (List.Perm.swap _ _ _)).1

/-- Claim C6: for every successfully constructed processor and every
`workerCount > 1`, `run` submits exactly the `image_pairs` list to the
pool, and any completion order of the workers (any permutation of the
submitted tasks) contains every WorkItem exactly once — duplicate-free,
with nothing beyond the submitted WorkItems, and of total length
`n_files`. -/
theorem spec_c6_parallel_exactly_once (ma mb : List PyPath)
    (m : Multiprocesser) (k : Int)
    (h : Multiprocesser.init ma mb = Except.ok m) (hk : 1 < k) :
    m.run k = RunOutcome.submittedToPool m.image_pairs k ∧
      ∀ completionOrder : List WorkItem,
        completionOrder.Perm m.image_pairs →
          completionOrder.Nodup ∧
          (∀ w : WorkItem, w ∈ completionOrder ↔ w ∈ m.image_pairs) ∧
          completionOrder.length = m.n_files := by
  obtain ⟨-, -, hn, hab, -⟩ := Multiprocesser.init_ok h
  constructor
  · simp only [Multiprocesser.run]
    rw [if_pos hk]
  · intro order hord
    exact ⟨hord.symm.nodup (image_pairs_nodup hab hn),
      fun w => hord.mem_iff,
      by rw [hord.length_eq, image_pairs_length hab hn]⟩

/-- Witness for C6: a concrete processor with three workers and the
identity completion order. -/
theorem spec_c6_parallel_exactly_once_witness :
    (Multiprocesser.mk ["x".data] ["y".data] 1).run 3 =
      RunOutcome.submittedToPool
        (Multiprocesser.mk ["x".data] ["y".data] 1).image_pairs 3 :=
  (spec_c6_parallel_exactly_once ["x".data] ["y".data] _ 3 (by decide)
    (by decide)).1

/-- Claim C8: `run` performs no validation of `workerCount`: every value
`≤ 1`, including `0` and negatives, takes the sequential branch (the
`else` of `n_cpus > 1`, tools.py line 278) without raising, and the loop
calls the per-pair function on every WorkItem in ascending `PairIndex`
order. -/
theorem spec_c8_nonpositive_worker_count (ma mb : List PyPath)
    (m : Multiprocesser) (k : Int)
    (h : Multiprocesser.init ma mb = Except.ok m) (hk : k ≤ 1) :
    m.run k = RunOutcome.sequentialCalls m.image_pairs ∧
      runLoop (fun w t => t ++ [w]) m.image_pairs [] = m.image_pairs ∧
      List.Pairwise (fun w w2 => w.2.2 < w2.2.2) m.image_pairs := by
  obtain ⟨-, -, hn, hab, -⟩ := Multiprocesser.init_ok h
  refine ⟨?_, runLoop_trace _, image_pairs_sorted_idx hab hn⟩
  simp only [Multiprocesser.run]
  rw [if_neg (by omega : ¬(k > 1))]

/-- Witness for C8: `workerCount = -3` still takes the sequential branch. -/
theorem spec_c8_nonpositive_worker_count_witness :
    (Multiprocesser.mk ["x".data] ["y".data] 1).run (-3) =
      RunOutcome.sequentialCalls
        (Multiprocesser.mk ["x".data] ["y".data] 1).image_pairs :=
  (spec_c8_nonpositive_worker_count ["x".data] ["y".data] _ (-3) (by decide)
    (by decide)).1

/-- Claim C9: every construction failure is a `ValueError`; the
mismatched-count and no-files failures share the exception class and
differ only in their message text. -/
theorem spec_c9_same_exception_type :
    (∀ (ma mb : List PyPath) (e : PyError),
        Multiprocesser.init ma mb = Except.error e →
          e.etype = PyExcType.valueError) ∧
      mismatchedCountError.etype = noFilesFoundError.etype ∧
      mismatchedCountError.msg ≠ noFilesFoundError.msg := by
  refine ⟨?_, rfl, by decide⟩
  intro ma mb e h
  simp only [Multiprocesser.init] at h
  split_ifs at h
  all_goals cases h
  all_goals rfl

/-- Witness for C9: the mismatch failure at a concrete input is a
`ValueError`. -/
theorem spec_c9_same_exception_type_witness :
    mismatchedCountError.etype = PyExcType.valueError :=
  spec_c9_same_exception_type.1 ["x".data] [] mismatchedCountError
    (by decide)

/-- Claim C10: construction imposes no disjointness check.  If some
directory entry matches both patterns and the two match counts are equal,
construction succeeds and the entry's full path appears in both FileSet A
and FileSet B. -/
theorem spec_c10_no_disjointness (d pa pb name : PyPath)
    (fs : List PyPath) (hmem : name ∈ fs)
    (hma : globMatch pa name = true) (hmb : globMatch pb name = true)
    (hlen : (globGlob d pa fs).length = (globGlob d pb fs).length) :
    ∃ m : Multiprocesser, mkMultiprocesser d pa pb fs = Except.ok m ∧
      (d ++ '/' :: name) ∈ m.files_a ∧ (d ++ '/' :: name) ∈ m.files_b := by
  have hmemA : (d ++ '/' :: name) ∈ globGlob d pa fs :=
    List.mem_map_of_mem _ (List.mem_filter.mpr ⟨hmem, hma⟩)
  have hmemB : (d ++ '/' :: name) ∈ globGlob d pb fs :=
    List.mem_map_of_mem _ (List.mem_filter.mpr ⟨hmem, hmb⟩)
  have hne : globGlob d pa fs ≠ [] := fun h0 => by
    rw [h0] at hmemA
    cases hmemA
  exact ⟨_, Multiprocesser.init_ok_of hlen hne,
    pysorted_mem hmemA, pysorted_mem hmemB⟩

/-- Witness for C10: `a.png` matches both `*.png` and `*`, the counts
agree, and its full path lands in both FileSets. -/
theorem spec_c10_no_disjointness_witness :
    ∃ m : Multiprocesser,
      mkMultiprocesser "/data".data "*.png".data "*".data
          ["a.png".data, "b.png".data] = Except.ok m ∧
        ("/data".data ++ '/' :: "a.png".data) ∈ m.files_a ∧
        ("/data".data ++ '/' :: "a.png".data) ∈ m.files_b :=
  spec_c10_no_disjointness _ _ _ _ _ (by decide) (by decide) (by decide)
    (by decide)
